import Mathlib

/-!
Shallow embedding of the Saas-Directory-Agent submission workflow engine
(src/backend/app/services): the field mapper (AIFormReader.map_saas_data_to_fields),
the login step (LoginHandler.login_if_required / BrowserAutomation.login_if_required),
the fill/submit step with its result classification (FormFiller.fill_and_submit_form /
BrowserAutomation.fill_and_submit_form), the per-directory state machine
(WorkflowManager._submit_with_playwright and _submit_with_browser_use), the entry point
(WorkflowManager.submit_to_directory), the bulk coordinator (WorkflowManager.bulk_submit)
and the retry filter (WorkflowManager.retry_failed_submissions).

Browser and network effects are abstracted as oracle values describing the outcome the
browser surfaces at each suspension point; all control flow, record mutation and counter
arithmetic are translated from the Python source.
-/

namespace SaasDir

/-- Python truthiness of an optional string: `None` and `""` are falsy. -/
def truthy : Option String → Bool
  | none => false
  | some s => !(s == "")

/-- Python `a or b` on optional strings: keep `a` when truthy, else `b`. -/
def pyOr (a b : Option String) : Option String :=
  if truthy a then a else b

/-- Python `a or b` where `b` is a non-null string, as in
`directory.submission_url or directory.url`. -/
def pyOrStr (a : Option String) (b : String) : String :=
  match a with
  | some s => if s == "" then b else s
  | none => b

/-- One form field as returned by the AI form reader, after its defensive parse:
`field.get("field_name", "")` and `field.get("selector", "")`. -/
structure DetectedField where
  field_name : String
  selector : String
deriving DecidableEq, Repr

/-- Parsed form structure: `{"fields": [...], "submit_button_selector": ...}`. -/
structure FormStructure where
  fields : List DetectedField
  submit_button_selector : Option String
deriving DecidableEq, Repr

/-- The `social_links` JSON dict, restricted to the two keys the mapper reads. -/
structure SocialLinks where
  twitter : Option String
  linkedin : Option String
deriving DecidableEq, Repr

/-- Output of WorkflowManager._saas_product_to_dict: the product snapshot fed to the
field mapper. -/
structure SaasData where
  name : Option String
  website_url : Option String
  description : Option String
  short_description : Option String
  category : Option String
  logo_url : Option String
  contact_email : Option String
  tagline : Option String
  pricing_model : Option String
  social_links : Option SocialLinks
deriving DecidableEq, Repr

/-- A field mapping: insertion-ordered dict from CSS selector to the value to fill. -/
abbrev FieldMapping := List (String × String)

/-- Python dict assignment `m[k] = v`: update in place when the key exists, else append. -/
def dictInsert (m : FieldMapping) (k v : String) : FieldMapping :=
  if m.any (fun p => p.1 == k) then
    m.map (fun p => if p.1 == k then (k, v) else p)
  else m ++ [(k, v)]

/-- The value AIFormReader.map_saas_data_to_fields picks for a recognized semantic
field name; `none` for an unrecognized name. -/
def fieldValue (saas_data : SaasData) (field_name : String) : Option String :=
  if field_name == "company_name" then saas_data.name
  else if field_name == "website_url" then saas_data.website_url
  else if field_name == "contact_email" then saas_data.contact_email
  else if field_name == "description" then saas_data.description
  else if field_name == "short_description" then pyOr saas_data.short_description saas_data.tagline
  else if field_name == "category" then saas_data.category
  else if field_name == "logo" then saas_data.logo_url
  else if field_name == "twitter_url" then
    match saas_data.social_links with
    | some social => social.twitter
    | none => none
  else if field_name == "linkedin_url" then
    match saas_data.social_links with
    | some social => social.linkedin
    | none => none
  else if field_name == "pricing_model" then saas_data.pricing_model
  else none

/-- Loop body of AIFormReader.map_saas_data_to_fields: skip empty selectors, store the
value keyed by selector when it is truthy. -/
def mapStep (saas_data : SaasData) (m : FieldMapping) (field : DetectedField) :
    FieldMapping :=
  if field.selector == "" then m
  else
    match fieldValue saas_data field.field_name with
    | some v => if v == "" then m else dictInsert m field.selector v
    | none => m

/-- AIFormReader.map_saas_data_to_fields: walk the detected fields, skip empty selectors,
store truthy values keyed by selector. -/
def map_saas_data_to_fields (saas_data : SaasData) (detected_fields : List DetectedField) :
    FieldMapping :=
  detected_fields.foldl (mapStep saas_data) []

/-- Semantic category `c` is mapped onto selector `s` by the field mapper: some detected
field classified as `c` carries selector `s`, the selector is non-empty and the product
value for `c` is truthy (exactly the conditions under which the mapper writes the key). -/
def categoryMapsTo (saas_data : SaasData) (detected_fields : List DetectedField)
    (c s : String) : Prop :=
  s ≠ "" ∧ truthy (fieldValue saas_data c) = true ∧
    ∃ fld ∈ detected_fields, fld.field_name = c ∧ fld.selector = s

/-- Submission status enum from app.models. -/
inductive SubmissionStatus where
  | PENDING
  | SUBMITTED
  | APPROVED
  | REJECTED
  | FAILED
deriving DecidableEq, Repr

/-- One entry of Submission.error_log: `{"timestamp": ..., "error": ...}`. -/
structure ErrorEntry where
  timestamp : Int
  error : String
deriving DecidableEq, Repr

/-- The Submission record fields touched by the workflow engine (app.models.Submission). -/
structure Submission where
  user_id : Nat
  saas_product_id : Nat
  directory_id : Nat
  status : SubmissionStatus
  submitted_at : Option Int
  response_message : Option String
  listing_url : Option String
  retry_count : Nat
  max_retries : Nat
  last_retry_at : Option Int
  error_log : List ErrorEntry
  detected_fields : Option FormStructure
  submission_data : Option (FieldMapping × FormStructure)
  form_screenshot_url : Option String
deriving DecidableEq, Repr

/-- The Directory record fields touched by the workflow engine (app.models.Directory). -/
structure Directory where
  url : String
  submission_url : Option String
  requires_login : Bool
  login_url : Option String
  login_username : Option String
  login_password : Option String
  requires_url_first : Bool
  url_field_selector : Option String
  url_submit_selector : Option String
  is_multi_step : Bool
  step_count : Nat
  detected_form_structure : Option FormStructure
  last_form_detection : Option Int
  total_submissions : Nat
  successful_submissions : Nat
deriving DecidableEq, Repr

/-- The eligibility filter of WorkflowManager.retry_failed_submissions:
status FAILED, retry budget left, and last retry absent or older than the delay. -/
def retryEligible (s : Submission) (now retry_delay : Int) : Bool :=
  (s.status == SubmissionStatus.FAILED) &&
  (s.retry_count < s.max_retries) &&
  (match s.last_retry_at with
   | none => true
   | some t => decide (t < now - retry_delay))

/-- The set of submissions the Retry Scheduler selects on one sweep
(the query of WorkflowManager.retry_failed_submissions over the stored records). -/
def retry_failed_submissions (subs : List Submission) (now retry_delay : Int) :
    List Submission :=
  subs.filter (fun s => retryEligible s now retry_delay)

/-- One guarded attempt of WorkflowManager.bulk_submit: `attempt` models
submit_to_directory for a directory id, producing a record or raising; the surrounding
`try/except` turns a raise into `None`. -/
def submit_with_semaphore (attempt : Nat → Except String Submission)
    (directory_id : Nat) : Option Submission :=
  match attempt directory_id with
  | Except.ok s => some s
  | Except.error _ => none

/-- WorkflowManager.bulk_submit: run every attempt, keep exactly the produced records
(`[s for s in results if isinstance(s, Submission)]`). -/
def bulk_submit (attempt : Nat → Except String Submission)
    (directory_ids : List Nat) : List Submission :=
  (directory_ids.map (fun dir_id => submit_with_semaphore attempt dir_id)).filterMap id

/-- Char-list test: does the first list start the second. -/
def charsPre : List Char → List Char → Bool
  | [], _ => true
  | _ :: _, [] => false
  | a :: as, b :: bs => (a == b) && charsPre as bs

/-- Helper for substring containment over char lists. -/
def containsSubAux (pat : List Char) : List Char → Bool
  | [] => pat.isEmpty
  | c :: rest => charsPre pat (c :: rest) || containsSubAux pat rest

/-- Python `pat in s` substring containment, haystack given as a char list. -/
def containsSub (s : List Char) (pat : String) : Bool :=
  containsSubAux pat.data s

/-- Python `page_content.lower()`, as the page's char list. -/
def pageTextChars (page_content : String) : List Char :=
  page_content.data.map Char.toLower

/-- The fixed positive marker list of fill_and_submit_form. -/
def success_indicators : List String :=
  ["success", "thank you", "submitted", "received", "confirmation", "pending review",
   "approved"]

/-- The fixed negative marker list of fill_and_submit_form. -/
def error_indicators : List String :=
  ["error", "invalid", "failed", "required field", "please correct", "try again"]

/-- Does the lowercased page content contain a positive marker
(`any(indicator in page_text ...)` over success_indicators). -/
def hasSuccessMarker (page_content : String) : Bool :=
  success_indicators.any (fun ind => containsSub (pageTextChars page_content) ind)

/-- Does the lowercased page content contain a negative marker. -/
def hasErrorMarker (page_content : String) : Bool :=
  error_indicators.any (fun ind => containsSub (pageTextChars page_content) ind)

/-- The result dict of fill_and_submit_form. -/
structure FillResult where
  success : Bool
  message : String
  listing_url : Option String
  screenshot_path : Option String
deriving DecidableEq, Repr

/-- Result-classification tail of fill_and_submit_form: positive markers win, negative
markers are checked only afterwards, anything else is optimistic success. -/
def classifyResult (page_content current_url : String) (result : FillResult) : FillResult :=
  if hasSuccessMarker page_content then
    { result with success := true, message := "Form submitted successfully",
                  listing_url := some current_url }
  else if hasErrorMarker page_content then
    { result with message := "Submission failed - validation errors" }
  else
    { result with success := true, message := "Form submitted",
                  listing_url := some current_url }

/-- Outcome the browser surfaces for one fill/submit run: a timeout raised by
Playwright, any other exception, or the post-submit page content and URL. -/
inductive FillOutcome where
  | timeout
  | failure (msg : String)
  | page (content : String) (current_url : String)
deriving DecidableEq, Repr

/-- Oracle for one fill_and_submit_form run; `shot` is the pre-submit screenshot path
recorded in the result if the run got that far. -/
structure FillOracle where
  outcome : FillOutcome
  shot : Option String
deriving DecidableEq, Repr

/-- FormFiller.fill_and_submit_form / BrowserAutomation.fill_and_submit_form: a result
dict is always returned; the `try/except` turns a timeout or any other exception into a
message on the default (failed) result. -/
def fill_and_submit_form (url : String) (field_mapping : FieldMapping)
    (submit_button_selector : Option String) (is_multi_step : Bool) (step_count : Nat)
    (o : FillOracle) : FillResult :=
  let result : FillResult :=
    { success := false, message := "", listing_url := none, screenshot_path := o.shot }
  match o.outcome with
  | FillOutcome.timeout => { result with message := "Timeout submitting to " ++ url }
  | FillOutcome.failure msg => { result with message := "Error: " ++ msg }
  | FillOutcome.page content current_url => classifyResult content current_url result

/-- LoginHandler.login_if_required / BrowserAutomation.login_if_required: any missing
credential short-circuits to `True` before a page is opened; otherwise the browser login
runs and its outcome (`browser_login_ok`, exceptions mapped to `False` by the handler's
`except`) is returned. The second component counts browser pages opened. -/
def login_if_required (login_url username password : Option String)
    (browser_login_ok : Bool) : Bool × Nat :=
  if !(truthy login_url) || !(truthy username) || !(truthy password) then (true, 0)
  else (browser_login_ok, 1)

/-- Oracle for the browser-facing suspension points of one Playwright attempt: session
construction (the `async with` entry, whose BrowserAutomation.initialize can raise), the
browser login outcome, the url-first step (resulting form-page URL or a raised message),
the navigate-and-screenshot step of form detection (raises propagate), the AI form
reader call (AIFormReader.analyze_form_from_html re-raises Ollama and client errors, so
it either raises or returns a structure; its defensive JSON parse degrading to an empty
field list is the `Except.ok` case with no fields), and the fill/submit run. -/
structure BrowserOracle where
  enter : Except String Unit
  login_ok : Bool
  url_first : Except String String
  detect_nav : Except String Unit
  detect : Except String FormStructure
  fill : FillOracle

/-- Result of one _submit_with_playwright run: the persisted Submission and Directory
states plus counters of AI detection calls, fill_and_submit_form calls and browser
login pages opened, used to state the no-redundant-work properties. -/
structure MachineResult where
  submission : Submission
  directory : Directory
  detectionCalls : Nat
  fillCalls : Nat
  loginBrowserCalls : Nat
deriving DecidableEq, Repr

/-- The `except` block of _submit_with_playwright: status FAILED, message
`"Error: " + str(e)`, and one timestamped entry appended to error_log
(`None` treated as the empty list first). -/
def recordError (sub : Submission) (now : Int) (msg : String) : Submission :=
  { sub with
      status := SubmissionStatus.FAILED,
      response_message := some ("Error: " ++ msg),
      error_log := sub.error_log ++ [{ timestamp := now, error := msg }] }

/-- A run of _submit_with_playwright ending in its `except` block. -/
def failResult (sub : Submission) (dir : Directory) (now : Int) (msg : String)
    (det fills loginCalls : Nat) : MachineResult :=
  { submission := recordError sub now msg, directory := dir,
    detectionCalls := det, fillCalls := fills, loginBrowserCalls := loginCalls }

/-- State left by the body of the `async with BrowserAutomation()` block of
_submit_with_playwright: the record and directory as mutated (and committed) so far,
whether the body raised and with what message, and the work counters. Whatever the body
does, control then passes to the context-manager exit. -/
structure BodyState where
  sub : Submission
  dir : Directory
  raised : Bool
  raise_msg : Option String
  detectionCalls : Nat
  fillCalls : Nat
  loginBrowserCalls : Nat
deriving Repr

/-- A with-block body that raised `msg`: the record is untouched, the directory holds
whatever was committed before the raise, and no fill ran. -/
def bodyRaise (sub : Submission) (dir : Directory) (msg : String) (det lc : Nat) :
    BodyState :=
  { sub := sub, dir := dir, raised := true, raise_msg := some msg,
    detectionCalls := det, fillCalls := 0, loginBrowserCalls := lc }

/-- Steps 3 to 5 of _submit_with_playwright's with-block body: map the product onto the
detected fields, raise "No fields could be mapped" on an empty mapping, otherwise store
the structure on the record, run fill_and_submit_form once and persist (commit) the
classified outcome together with the field-mapping snapshot; only a completed fill run
moves the directory counters. -/
def submitAfterDetect (sub : Submission) (saas_data : SaasData) (dir : Directory)
    (fo : FillOracle) (now : Int) (actual_form_url : String) (fs : FormStructure)
    (det loginCalls : Nat) : BodyState :=
  let field_mapping := map_saas_data_to_fields saas_data fs.fields
  if field_mapping.isEmpty then
    bodyRaise sub dir "No fields could be mapped" det loginCalls
  else
    let sub1 := { sub with detected_fields := some fs }
    let r := fill_and_submit_form actual_form_url field_mapping fs.submit_button_selector
      dir.is_multi_step dir.step_count fo
    let sub2 :=
      if r.success then
        { sub1 with status := SubmissionStatus.SUBMITTED, submitted_at := some now,
                    listing_url := r.listing_url, response_message := some r.message }
      else
        { sub1 with status := SubmissionStatus.FAILED, response_message := some r.message }
    let dir2 :=
      if r.success then
        { dir with total_submissions := dir.total_submissions + 1,
                   successful_submissions := dir.successful_submissions + 1 }
      else
        { dir with total_submissions := dir.total_submissions + 1 }
    let sub3 := { sub2 with submission_data := some (field_mapping, fs) }
    let sub4 :=
      if truthy r.screenshot_path then { sub3 with form_screenshot_url := r.screenshot_path }
      else sub3
    { sub := sub4, dir := dir2, raised := false, raise_msg := none,
      detectionCalls := det, fillCalls := 1, loginBrowserCalls := loginCalls }

/-- Step 1 of _submit_with_playwright: login only when the directory requires it. -/
def loginPhase (dir : Directory) (o : BrowserOracle) : Bool × Nat :=
  if dir.requires_login then
    login_if_required dir.login_url dir.login_username dir.login_password o.login_ok
  else (true, 0)

/-- Step 1.5 of _submit_with_playwright: the url-first step replaces the form URL when
required (a raise there is fatal), else the form URL is `submission_url or url`. -/
def urlFirstPhase (dir : Directory) (o : BrowserOracle) : Except String String :=
  if dir.requires_url_first then o.url_first
  else Except.ok (pyOrStr dir.submission_url dir.url)

/-- The body of the `async with` block of _submit_with_playwright (steps 1 to 5): login,
url-first, cache-gated form detection (a completed detection is stored on the Directory
with a timestamp and committed before mapping; a detection raise caches nothing), then
mapping, fill and in-band outcome persistence. -/
def playwrightBody (sub : Submission) (saas_data : SaasData) (dir : Directory)
    (o : BrowserOracle) (now : Int) : BodyState :=
  let login := loginPhase dir o
  if login.1 = false then
    bodyRaise sub dir "Login failed" 0 login.2
  else
    match urlFirstPhase dir o with
    | Except.error e => bodyRaise sub dir e 0 login.2
    | Except.ok actual_form_url =>
      match dir.detected_form_structure with
      | some fs =>
        submitAfterDetect sub saas_data dir o.fill now actual_form_url fs 0 login.2
      | none =>
        match o.detect_nav with
        | Except.error e => bodyRaise sub dir e 0 login.2
        | Except.ok _ =>
          match o.detect with
          | Except.error e => bodyRaise sub dir e 1 login.2
          | Except.ok fs =>
            submitAfterDetect sub saas_data
              { dir with detected_form_structure := some fs,
                         last_form_detection := some now }
              o.fill now actual_form_url fs 1 login.2

/-- Message of the TypeError raised at every exit of the `async with` block:
BrowserAutomation.__aexit__(self) takes no exception parameters, while the async-with
protocol calls it with three, so the call itself raises (text as produced by current
CPython; older versions omit the class prefix). -/
def aexitTypeErrorMsg : String :=
  "BrowserAutomation.__aexit__() takes 1 positional argument but 4 were given"

/-- WorkflowManager._submit_with_playwright (identically
PlaywrightStrategy.execute_submission). A session-construction failure skips the body
and is recorded directly by the `except` block. Otherwise the with-block body runs, and
on every exit - whether the body raised or completed - the context-manager call raises
the __aexit__ arity TypeError, which replaces any in-body exception; the `except` block
then marks the record FAILED with the TypeError text and appends the timestamped entry,
on top of whatever the body already committed (so even a classified-success run ends
FAILED, keeping its listing_url, submitted_at and incremented directory counters). -/
def submitWithPlaywright (sub : Submission) (saas_data : SaasData) (dir : Directory)
    (o : BrowserOracle) (now : Int) : MachineResult :=
  match o.enter with
  | Except.error e => failResult sub dir now e 0 0 0
  | Except.ok _ =>
    let b := playwrightBody sub saas_data dir o now
    { submission := recordError b.sub now aexitTypeErrorMsg, directory := b.dir,
      detectionCalls := b.detectionCalls, fillCalls := b.fillCalls,
      loginBrowserCalls := b.loginBrowserCalls }

/-- Outcome of the Browser Use service call made by _submit_with_browser_use: either an
exception escapes (the service construction or its `except` block itself can raise) or a
result dict with `success`, `message` and `screenshot_path` comes back. -/
inductive BrowserUseOutcome where
  | raised (msg : String)
  | result (success : Bool) (message : String) (screenshot_path : Option String)
deriving DecidableEq, Repr

/-- WorkflowManager._submit_with_browser_use: no local `except`, so a raise escapes to
the caller; a returned result moves the record to SUBMITTED or FAILED and bumps the
directory counters, with no error_log entry and no listing_url in either branch. -/
def submitWithBrowserUse (sub : Submission) (dir : Directory) (o : BrowserUseOutcome)
    (now : Int) : Except String (Submission × Directory) :=
  match o with
  | BrowserUseOutcome.raised msg => Except.error msg
  | BrowserUseOutcome.result ok message shot =>
    if ok then
      Except.ok
        ({ sub with status := SubmissionStatus.SUBMITTED, submitted_at := some now,
                    response_message := some message, form_screenshot_url := shot },
         { dir with total_submissions := dir.total_submissions + 1,
                    successful_submissions := dir.successful_submissions + 1 })
    else
      Except.ok
        ({ sub with status := SubmissionStatus.FAILED, response_message := some message,
                    form_screenshot_url := shot },
         { dir with total_submissions := dir.total_submissions + 1 })

/-- What WorkflowManager.submit_to_directory leaves behind: the Submission record as
persisted (none when never created), the Directory state, and the exception propagated
to the caller, if any. -/
structure SubmitOutcome where
  record : Option Submission
  directory : Option Directory
  raisedToCaller : Option String
deriving DecidableEq, Repr

/-- The fresh PENDING record submit_to_directory creates, with the model defaults of
app.models.Submission. -/
def newSubmission (user_id saas_product_id directory_id : Nat) : Submission :=
  { user_id := user_id, saas_product_id := saas_product_id, directory_id := directory_id,
    status := SubmissionStatus.PENDING, submitted_at := none, response_message := none,
    listing_url := none, retry_count := 0, max_retries := 3, last_retry_at := none,
    error_log := [], detected_fields := none, submission_data := none,
    form_screenshot_url := none }

/-- WorkflowManager.submit_to_directory: a missing product or directory raises before any
record exists; then a PENDING record is created and one of the two strategies runs. The
Playwright strategy absorbs every raise; in the Browser Use branch a raise is caught by
the outer `except`, which marks the record FAILED with the message and re-raises. -/
def submit_to_directory (saas_lookup : Option SaasData) (dir_lookup : Option Directory)
    (use_browser_use : Bool) (oPW : BrowserOracle) (oBU : BrowserUseOutcome)
    (user_id saas_product_id directory_id : Nat) (now : Int) : SubmitOutcome :=
  match saas_lookup, dir_lookup with
  | some saas_data, some dir =>
    let sub0 := newSubmission user_id saas_product_id directory_id
    if use_browser_use then
      match submitWithBrowserUse sub0 dir oBU now with
      | Except.ok (sub, dir2) =>
        { record := some sub, directory := some dir2, raisedToCaller := none }
      | Except.error e =>
        { record := some { sub0 with status := SubmissionStatus.FAILED,
                                     response_message := some ("Error: " ++ e) },
          directory := some dir, raisedToCaller := some e }
    else
      let r := submitWithPlaywright sub0 saas_data dir oPW now
      { record := some r.submission, directory := some r.directory, raisedToCaller := none }
  | _, _ =>
    { record := none, directory := none,
      raisedToCaller := some "SaaS product or directory not found" }

/-- Sample detected field classified as the company name. -/
def wField : DetectedField := { field_name := "company_name", selector := "#name" }

/-- Sample detected field classified as the website URL, sharing the selector of wField. -/
def wField2 : DetectedField := { field_name := "website_url", selector := "#name" }

/-- Sample detector output with a duplicated selector. -/
def wDetected : List DetectedField := [wField, wField2]

/-- Sample product snapshot. -/
def wSaas : SaasData :=
  { name := some "Acme", website_url := some "https://acme.example",
    description := some "A sample product", short_description := none, category := none,
    logo_url := none, contact_email := some "hi@acme.example", tagline := none,
    pricing_model := none, social_links := none }

/-- Sample cached form structure with a single mappable field. -/
def wFS : FormStructure := { fields := [wField], submit_button_selector := some "#go" }

/-- Sample form structure with zero detected fields. -/
def wFSempty : FormStructure := { fields := [], submit_button_selector := none }

/-- A fresh PENDING record. -/
def wFresh : Submission := newSubmission 1 1 1

/-- A FAILED record whose retry budget is exhausted. -/
def wSubFailedMax : Submission :=
  { wFresh with status := SubmissionStatus.FAILED, retry_count := 3, max_retries := 3 }

/-- The default result dict fill_and_submit_form starts from, with no screenshot. -/
def fillBase : FillResult :=
  { success := false, message := "", listing_url := none, screenshot_path := none }

/-- Fill oracle: the post-submit page carries a positive marker. -/
def wFillPageOk : FillOracle :=
  { outcome := FillOutcome.page "Thank you for submitting" "https://d.example/done",
    shot := none }

/-- Fill oracle: the browser times out. -/
def wTimeoutOracle : FillOracle := { outcome := FillOutcome.timeout, shot := none }

/-- Browser oracle where every phase behaves well. -/
def wOracleA : BrowserOracle :=
  { enter := Except.ok (), login_ok := true,
    url_first := Except.ok "https://d.example/form",
    detect_nav := Except.ok (), detect := Except.ok wFS, fill := wFillPageOk }

/-- Browser oracle whose login interaction fails. -/
def cOracleLoginFail : BrowserOracle := { wOracleA with login_ok := false }

/-- Browser oracle whose AI detection call raises (an Ollama error re-raised by the
form reader). -/
def cOracleDetectRaise : BrowserOracle :=
  { wOracleA with detect := Except.error "Ollama connection refused" }

/-- Sample directory with no login, no url-first and no cached structure. -/
def wDir : Directory :=
  { url := "https://d.example", submission_url := none, requires_login := false,
    login_url := none, login_username := none, login_password := none,
    requires_url_first := false, url_field_selector := none, url_submit_selector := none,
    is_multi_step := false, step_count := 1, detected_form_structure := none,
    last_form_detection := none, total_submissions := 0, successful_submissions := 0 }

/-- Sample directory with a cached form structure. -/
def wDirCached : Directory := { wDir with detected_form_structure := some wFS }

/-- Directory that requires login with complete stored credentials and non-zero counters. -/
def cDirLogin : Directory :=
  { wDir with
      requires_login := true
      login_url := some "https://d.example/login"
      login_username := some "user"
      login_password := some "pw"
      total_submissions := 5
      successful_submissions := 2 }

/-- Directory flagged requires_login whose stored login_url is empty. -/
def wDirNoCreds : Directory := { wDir with requires_login := true, login_url := some "" }

/-- Directory whose cached form structure has zero detected fields. -/
def wDirEmptyCache : Directory := { wDir with detected_form_structure := some wFSempty }

/-- Bulk attempt function where exactly directory id 2 raises. -/
def wAttempt : Nat → Except String Submission :=
  fun i => if i == 2 then Except.error "boom" else Except.ok wFresh

/-! Helper lemmas. -/

theorem retryEligible_iff (s : Submission) (now retry_delay : Int) :
    retryEligible s now retry_delay = true ↔
      (s.status = SubmissionStatus.FAILED ∧ s.retry_count < s.max_retries ∧
        (s.last_retry_at = none ∨ ∃ t, s.last_retry_at = some t ∧ t < now - retry_delay)) := by
  unfold retryEligible
  cases h : s.last_retry_at with
  | none => simp [h, and_assoc]
  | some t => simp [h, and_assoc]

theorem length_filterMap_eq_countP {α β : Type} (f : α → Option β) (l : List α) :
    (l.filterMap f).length = l.countP (fun a => (f a).isSome) := by
  induction l with
  | nil => rfl
  | cons x t ih =>
    cases h : f x <;> simp [List.filterMap_cons, h, List.countP_cons, ih]

theorem countP_add_countP_not {α : Type} (p : α → Bool) (l : List α) :
    l.countP p + l.countP (fun a => !(p a)) = l.length := by
  induction l with
  | nil => rfl
  | cons x t ih =>
    by_cases h : p x = true <;> simp [List.countP_cons, h] <;> omega

theorem two_le_countP {α : Type} (p : α → Bool) {l : List α} {a b : α}
    (ha : a ∈ l) (hb : b ∈ l) (hab : a ≠ b) (hpa : p a = true) (hpb : p b = true) :
    2 ≤ l.countP p := by
  induction l with
  | nil => cases ha
  | cons x t ih =>
    rcases List.mem_cons.mp ha with rfl | ha'
    · rcases List.mem_cons.mp hb with rfl | hb'
      · exact absurd rfl hab
      · have h1 : 0 < t.countP p := List.countP_pos.mpr ⟨b, hb', hpb⟩
        rw [List.countP_cons_of_pos _ _ hpa]
        omega
    · rcases List.mem_cons.mp hb with rfl | hb'
      · have h1 : 0 < t.countP p := List.countP_pos.mpr ⟨a, ha', hpa⟩
        rw [List.countP_cons_of_pos _ _ hpb]
        omega
      · have h2 := ih ha' hb'
        rw [List.countP_cons]
        omega

theorem mem_keys_dictInsert {m : FieldMapping} {k v k' : String}
    (h : k' ∈ (dictInsert m k v).map Prod.fst) :
    k' = k ∨ k' ∈ m.map Prod.fst := by
  unfold dictInsert at h
  split at h
  · simp only [List.map_map, List.mem_map, Function.comp] at h
    obtain ⟨p, hp, hpk⟩ := h
    by_cases hc : p.1 == k
    · left
      rw [if_pos hc] at hpk
      exact hpk.symm
    · right
      rw [if_neg hc] at hpk
      exact List.mem_map.mpr ⟨p, hp, hpk⟩
  · simp only [List.map_append, List.mem_append, List.map_cons, List.map_nil,
      List.mem_singleton] at h
    rcases h with h | h
    · exact Or.inr h
    · exact Or.inl h

theorem mem_keys_mapStep {saas_data : SaasData} {m : FieldMapping} {field : DetectedField}
    {k : String} (h : k ∈ (mapStep saas_data m field).map Prod.fst) :
    k = field.selector ∨ k ∈ m.map Prod.fst := by
  unfold mapStep at h
  split at h
  · exact Or.inr h
  · split at h
    · split at h
      · exact Or.inr h
      · rcases mem_keys_dictInsert h with h' | h'
        · exact Or.inl h'
        · exact Or.inr h'
    · exact Or.inr h

theorem mem_keys_map_fold {saas_data : SaasData} :
    ∀ (detected : List DetectedField) (m0 : FieldMapping) (k : String),
      k ∈ ((detected.foldl (mapStep saas_data) m0).map Prod.fst) →
      k ∈ m0.map Prod.fst ∨ ∃ fld ∈ detected, fld.selector = k := by
  intro detected
  induction detected with
  | nil => intro m0 k h; exact Or.inl h
  | cons f t ih =>
    intro m0 k h
    rw [List.foldl_cons] at h
    rcases ih (mapStep saas_data m0 f) k h with h' | h'
    · rcases mem_keys_mapStep h' with h'' | h''
      · exact Or.inr ⟨f, List.mem_cons_self f t, h''.symm⟩
      · exact Or.inl h''
    · obtain ⟨fld, hmem, hsel⟩ := h'
      exact Or.inr ⟨fld, List.mem_cons_of_mem f hmem, hsel⟩

/-! Claim theorems. -/

/-- C3: the Retry Scheduler selects a Submission on a sweep if and only if it is stored,
FAILED, has retry budget remaining and its last retry is absent or older than the delay;
in particular a FAILED record with retry_count equal to max_retries is never selected,
whatever the elapsed time. -/
theorem retry_eligibility (s : Submission) (subs : List Submission) (now retry_delay : Int) :
    (s ∈ retry_failed_submissions subs now retry_delay ↔
      (s ∈ subs ∧ s.status = SubmissionStatus.FAILED ∧ s.retry_count < s.max_retries ∧
        (s.last_retry_at = none ∨ ∃ t, s.last_retry_at = some t ∧ t < now - retry_delay))) ∧
    (s.retry_count = s.max_retries →
      s ∉ retry_failed_submissions subs now retry_delay) := by
  have hiff := retryEligible_iff s now retry_delay
  constructor
  · rw [retry_failed_submissions, List.mem_filter, hiff]
  · intro hmax hmem
    rw [retry_failed_submissions, List.mem_filter, hiff] at hmem
    exact absurd hmem.2.2.1 (by omega)

/-- Witness for C3: a FAILED record with exhausted retry budget is not selected. -/
theorem retry_eligibility_witness :
    wSubFailedMax ∉ retry_failed_submissions [wSubFailedMax] 1000 300 :=
  (retry_eligibility wSubFailedMax [wSubFailedMax] 1000 300).2 rfl

/-- C4: bulk submission keeps exactly the records of the non-raising attempts, in order;
a raising attempt contributes nothing and leaves every sibling attempt's contribution
unchanged, so exactly one raising attempt out of N yields N-1 records. -/
theorem bulk_submit_isolation (attempt : Nat → Except String Submission)
    (directory_ids : List Nat) :
    bulk_submit attempt directory_ids
      = directory_ids.filterMap (fun i => (attempt i).toOption) ∧
    (bulk_submit attempt directory_ids).length
      = directory_ids.countP (fun i => (attempt i).toOption.isSome) ∧
    (∀ i s, i ∈ directory_ids → attempt i = Except.ok s →
       s ∈ bulk_submit attempt directory_ids) ∧
    (directory_ids.countP (fun i => (attempt i).toOption.isNone) = 1 →
       (bulk_submit attempt directory_ids).length + 1 = directory_ids.length) := by
  have hfm : bulk_submit attempt directory_ids
      = directory_ids.filterMap (fun i => (attempt i).toOption) := by
    unfold bulk_submit
    rw [List.filterMap_map]
    congr 1
    funext i
    unfold submit_with_semaphore
    cases h : attempt i <;> simp [h, Except.toOption, Function.comp]
  have hlen : (bulk_submit attempt directory_ids).length
      = directory_ids.countP (fun i => (attempt i).toOption.isSome) := by
    rw [hfm, length_filterMap_eq_countP]
  refine ⟨hfm, hlen, ?_, ?_⟩
  · intro i s hi hok
    rw [hfm]
    exact List.mem_filterMap.mpr ⟨i, hi, by rw [hok]; rfl⟩
  · intro hone
    have hcong : directory_ids.countP (fun i => (attempt i).toOption.isNone)
        = directory_ids.countP (fun i => !((attempt i).toOption.isSome)) := by
      apply List.countP_congr
      intro i _
      cases h : (attempt i).toOption <;> simp [h]
    have hsum := countP_add_countP_not (fun i => (attempt i).toOption.isSome) directory_ids
    rw [hcong] at hone
    omega

/-- Witness for C4: with three directory ids of which exactly id 2 raises, two records
come back and the record of attempt 1 is among them. -/
theorem bulk_submit_isolation_witness :
    (bulk_submit wAttempt [1, 2, 3]).length + 1 = 3 ∧
    wFresh ∈ bulk_submit wAttempt [1, 2, 3] := by
  have h := bulk_submit_isolation wAttempt [1, 2, 3]
  exact ⟨h.2.2.2 (by decide), h.2.2.1 1 wFresh (by decide) rfl⟩

/-- C7: every selector key of the produced field mapping is the selector of some detected
field, and two distinct semantic categories are mapped onto the same selector only when
the detected field list itself carries that selector at least twice. -/
theorem field_mapping_soundness (saas_data : SaasData) (detected_fields : List DetectedField) :
    (∀ k, k ∈ (map_saas_data_to_fields saas_data detected_fields).map Prod.fst →
       ∃ fld ∈ detected_fields, fld.selector = k) ∧
    (∀ c1 c2 s, c1 ≠ c2 →
       categoryMapsTo saas_data detected_fields c1 s →
       categoryMapsTo saas_data detected_fields c2 s →
       2 ≤ detected_fields.countP (fun fld => fld.selector == s)) := by
  constructor
  · intro k hk
    rw [map_saas_data_to_fields] at hk
    rcases mem_keys_map_fold detected_fields [] k hk with h | h
    · simp at h
    · exact h
  · rintro c1 c2 s hne ⟨-, -, f1, hm1, hn1, hs1⟩ ⟨-, -, f2, hm2, hn2, hs2⟩
    have hf : f1 ≠ f2 := by
      intro he
      exact hne (hn1 ▸ hn2 ▸ he ▸ rfl)
    exact two_le_countP _ hm1 hm2 hf (by simp [hs1]) (by simp [hs2])

/-- Witness for C7: on a detector output holding selector "#name" twice, both parts apply
at the concrete inputs. -/
theorem field_mapping_soundness_witness :
    (∃ fld ∈ wDetected, fld.selector = "#name") ∧
    2 ≤ wDetected.countP (fun fld => fld.selector == "#name") := by
  have h := field_mapping_soundness wSaas wDetected
  refine ⟨h.1 "#name" (by decide), ?_⟩
  refine h.2 "company_name" "website_url" "#name" (by decide) ?_ ?_
  · exact ⟨by decide, by decide, wField, by decide, rfl, rfl⟩
  · exact ⟨by decide, by decide, wField2, by decide, rfl, rfl⟩

/-- C1: after a form submission, a positive marker in the (lowercased) page text yields
success with the post-submit URL as listing URL; the negative set is consulted only when
no positive marker matched and yields failure; with neither marker set matching the
outcome defaults to success with the post-submit URL recorded. -/
theorem result_classification (page_content current_url : String) (base : FillResult)
    (hs : base.success = false) (hl : base.listing_url = none) :
    (hasSuccessMarker page_content = true →
       (classifyResult page_content current_url base).success = true ∧
       (classifyResult page_content current_url base).listing_url = some current_url ∧
       (classifyResult page_content current_url base).message
         = "Form submitted successfully") ∧
    (hasSuccessMarker page_content = false → hasErrorMarker page_content = true →
       (classifyResult page_content current_url base).success = false ∧
       (classifyResult page_content current_url base).listing_url = none ∧
       (classifyResult page_content current_url base).message
         = "Submission failed - validation errors") ∧
    (hasSuccessMarker page_content = false → hasErrorMarker page_content = false →
       (classifyResult page_content current_url base).success = true ∧
       (classifyResult page_content current_url base).listing_url = some current_url ∧
       (classifyResult page_content current_url base).message = "Form submitted") := by
  refine ⟨fun hpos => ?_, fun hpos hneg => ?_, fun hpos hneg => ?_⟩
  · simp [classifyResult, hpos, hs, hl]
  · simp [classifyResult, hpos, hneg, hs, hl]
  · simp [classifyResult, hpos, hneg, hs, hl]

/-- Witness for C1: a thank-you page is classified as success with the post-submit URL
recorded; a marker-free page also defaults to success. -/
theorem result_classification_witness :
    (classifyResult "Thank you for submitting" "https://d.example/done" fillBase).success
      = true ∧
    (classifyResult "Thank you for submitting" "https://d.example/done" fillBase).listing_url
      = some "https://d.example/done" ∧
    (classifyResult "A neutral landing page" "https://d.example/home" fillBase).success
      = true := by
  have h1 := result_classification "Thank you for submitting" "https://d.example/done"
    fillBase rfl rfl
  have h2 := result_classification "A neutral landing page" "https://d.example/home"
    fillBase rfl rfl
  exact ⟨(h1.1 (by decide)).1, (h1.1 (by decide)).2.1, (h2.2.2 (by decide) (by decide)).1⟩

/-- C10: fill_and_submit_form always returns a result record instead of propagating: a
browser timeout or any unexpected error yields success false with a descriptive message,
and whenever the returned success flag is false the listing_url is none. -/
theorem fill_and_submit_total (url : String) (field_mapping : FieldMapping)
    (sel : Option String) (is_multi_step : Bool) (step_count : Nat) (o : FillOracle) :
    (o.outcome = FillOutcome.timeout →
       (fill_and_submit_form url field_mapping sel is_multi_step step_count o).success
         = false ∧
       (fill_and_submit_form url field_mapping sel is_multi_step step_count o).message
         = "Timeout submitting to " ++ url) ∧
    (∀ msg, o.outcome = FillOutcome.failure msg →
       (fill_and_submit_form url field_mapping sel is_multi_step step_count o).success
         = false ∧
       (fill_and_submit_form url field_mapping sel is_multi_step step_count o).message
         = "Error: " ++ msg) ∧
    ((fill_and_submit_form url field_mapping sel is_multi_step step_count o).success
        = false →
       (fill_and_submit_form url field_mapping sel is_multi_step step_count o).listing_url
         = none) := by
  refine ⟨fun ht => ?_, fun msg hf => ?_, fun hfail => ?_⟩
  · simp [fill_and_submit_form, ht]
  · simp [fill_and_submit_form, hf]
  · cases ho : o.outcome with
    | timeout => simp [fill_and_submit_form, ho]
    | failure msg => simp [fill_and_submit_form, ho]
    | page content current_url =>
      simp only [fill_and_submit_form, ho] at hfail ⊢
      unfold classifyResult at hfail ⊢
      split at hfail
      · simp_all
      · split at hfail <;> simp_all

/-- Witness for C10: a timeout produces a returned failure result with no listing URL. -/
theorem fill_and_submit_total_witness :
    (fill_and_submit_form "https://d.example/form" [] none false 1 wTimeoutOracle).success
      = false ∧
    (fill_and_submit_form "https://d.example/form" [] none false 1 wTimeoutOracle).message
      = "Timeout submitting to https://d.example/form" ∧
    (fill_and_submit_form "https://d.example/form" [] none false 1 wTimeoutOracle).listing_url
      = none := by
  have h := fill_and_submit_total "https://d.example/form" [] none false 1 wTimeoutOracle
  exact ⟨(h.1 rfl).1, (h.1 rfl).2, h.2.2 (h.1 rfl).1⟩
/-! Lemmas about the Playwright state machine. -/

theorem submitAfterDetect_loginCalls (sub : Submission) (saas_data : SaasData)
    (dir : Directory) (fo : FillOracle) (now : Int) (u : String) (fs : FormStructure)
    (det lc : Nat) :
    (submitAfterDetect sub saas_data dir fo now u fs det lc).loginBrowserCalls = lc := by
  unfold submitAfterDetect
  dsimp only
  split <;> rfl

theorem submitAfterDetect_detCalls (sub : Submission) (saas_data : SaasData)
    (dir : Directory) (fo : FillOracle) (now : Int) (u : String) (fs : FormStructure)
    (det lc : Nat) :
    (submitAfterDetect sub saas_data dir fo now u fs det lc).detectionCalls = det := by
  unfold submitAfterDetect
  dsimp only
  split <;> rfl

theorem submitAfterDetect_dir_struct (sub : Submission) (saas_data : SaasData)
    (dir : Directory) (fo : FillOracle) (now : Int) (u : String) (fs : FormStructure)
    (det lc : Nat) :
    (submitAfterDetect sub saas_data dir fo now u fs det lc).dir.detected_form_structure
      = dir.detected_form_structure := by
  unfold submitAfterDetect
  dsimp only
  repeat' split
  all_goals rfl

theorem submitAfterDetect_dir_lastDet (sub : Submission) (saas_data : SaasData)
    (dir : Directory) (fo : FillOracle) (now : Int) (u : String) (fs : FormStructure)
    (det lc : Nat) :
    (submitAfterDetect sub saas_data dir fo now u fs det lc).dir.last_form_detection
      = dir.last_form_detection := by
  unfold submitAfterDetect
  dsimp only
  repeat' split
  all_goals rfl

theorem submitAfterDetect_snapshot (sub : Submission) (saas_data : SaasData)
    (dir : Directory) (fo : FillOracle) (now : Int) (u : String) (fs : FormStructure)
    (det lc : Nat) :
    (submitAfterDetect sub saas_data dir fo now u fs det lc).sub.submission_data
      = if (map_saas_data_to_fields saas_data fs.fields).isEmpty then sub.submission_data
        else some (map_saas_data_to_fields saas_data fs.fields, fs) := by
  unfold submitAfterDetect
  dsimp only
  split
  · simp_all [bodyRaise]
  · (repeat' split) <;> simp_all

theorem submitAfterDetect_error_log (sub : Submission) (saas_data : SaasData)
    (dir : Directory) (fo : FillOracle) (now : Int) (u : String) (fs : FormStructure)
    (det lc : Nat) :
    (submitAfterDetect sub saas_data dir fo now u fs det lc).sub.error_log
      = sub.error_log := by
  unfold submitAfterDetect
  dsimp only
  split
  · rfl
  · (repeat' split) <;> rfl

theorem submitAfterDetect_raised (sub : Submission) (saas_data : SaasData)
    (dir : Directory) (fo : FillOracle) (now : Int) (u : String) (fs : FormStructure)
    (det lc : Nat)
    (h : (submitAfterDetect sub saas_data dir fo now u fs det lc).raised = true) :
    submitAfterDetect sub saas_data dir fo now u fs det lc
      = bodyRaise sub dir "No fields could be mapped" det lc := by
  revert h
  unfold submitAfterDetect
  dsimp only
  split
  · intro _
    rfl
  · intro h
    simp at h

theorem submitAfterDetect_empty (sub : Submission) (saas_data : SaasData) (dir : Directory)
    (fo : FillOracle) (now : Int) (u : String) (fs : FormStructure) (det lc : Nat)
    (hempty : map_saas_data_to_fields saas_data fs.fields = []) :
    submitAfterDetect sub saas_data dir fo now u fs det lc
      = bodyRaise sub dir "No fields could be mapped" det lc := by
  unfold submitAfterDetect
  simp [hempty]

theorem body_loginCalls (sub : Submission) (saas_data : SaasData) (dir : Directory)
    (o : BrowserOracle) (now : Int) :
    (playwrightBody sub saas_data dir o now).loginBrowserCalls = (loginPhase dir o).2 := by
  unfold playwrightBody
  dsimp only
  repeat' split
  all_goals first
    | rfl
    | apply submitAfterDetect_loginCalls

theorem body_error_log (sub : Submission) (saas_data : SaasData) (dir : Directory)
    (o : BrowserOracle) (now : Int) :
    (playwrightBody sub saas_data dir o now).sub.error_log = sub.error_log := by
  unfold playwrightBody
  dsimp only
  repeat' split
  all_goals first
    | rfl
    | apply submitAfterDetect_error_log

theorem body_raised_effects (sub : Submission) (saas_data : SaasData) (dir : Directory)
    (o : BrowserOracle) (now : Int)
    (h : (playwrightBody sub saas_data dir o now).raised = true) :
    (playwrightBody sub saas_data dir o now).sub = sub ∧
    (playwrightBody sub saas_data dir o now).dir.total_submissions
      = dir.total_submissions ∧
    (playwrightBody sub saas_data dir o now).dir.successful_submissions
      = dir.successful_submissions ∧
    (playwrightBody sub saas_data dir o now).fillCalls = 0 := by
  revert h
  unfold playwrightBody
  dsimp only
  repeat' split
  all_goals intro h
  all_goals first
    | exact ⟨rfl, rfl, rfl, rfl⟩
    | (rw [submitAfterDetect_raised _ _ _ _ _ _ _ _ _ h]
       exact ⟨rfl, rfl, rfl, rfl⟩)

theorem body_detect_tri (sub : Submission) (saas_data : SaasData) (dir : Directory)
    (o : BrowserOracle) (now : Int) :
    ((playwrightBody sub saas_data dir o now).detectionCalls = 0 ∧
     (playwrightBody sub saas_data dir o now).dir.detected_form_structure
       = dir.detected_form_structure ∧
     (playwrightBody sub saas_data dir o now).dir.last_form_detection
       = dir.last_form_detection) ∨
    ((playwrightBody sub saas_data dir o now).detectionCalls = 1 ∧
     ∃ fs', o.detect = Except.ok fs' ∧
       (playwrightBody sub saas_data dir o now).dir.detected_form_structure = some fs' ∧
       (playwrightBody sub saas_data dir o now).dir.last_form_detection = some now) ∨
    ((playwrightBody sub saas_data dir o now).detectionCalls = 1 ∧
     (∃ e, o.detect = Except.error e) ∧
     (playwrightBody sub saas_data dir o now).dir.detected_form_structure
       = dir.detected_form_structure ∧
     (playwrightBody sub saas_data dir o now).dir.last_form_detection
       = dir.last_form_detection) := by
  unfold playwrightBody
  dsimp only
  repeat' split
  all_goals first
    | exact Or.inl ⟨rfl, rfl, rfl⟩
    | exact Or.inl ⟨submitAfterDetect_detCalls _ _ _ _ _ _ _ _ _,
        submitAfterDetect_dir_struct _ _ _ _ _ _ _ _ _,
        submitAfterDetect_dir_lastDet _ _ _ _ _ _ _ _ _⟩
    | exact Or.inr (Or.inr ⟨rfl, ⟨_, by assumption⟩, rfl, rfl⟩)
    | exact Or.inr (Or.inl ⟨submitAfterDetect_detCalls _ _ _ _ _ _ _ _ _, _,
        by assumption,
        by rw [submitAfterDetect_dir_struct],
        by rw [submitAfterDetect_dir_lastDet]⟩)

theorem body_cached (sub : Submission) (saas_data : SaasData) (dir : Directory)
    (o : BrowserOracle) (now : Int) (fs : FormStructure)
    (hfs : dir.detected_form_structure = some fs) :
    (playwrightBody sub saas_data dir o now).detectionCalls = 0 ∧
    (playwrightBody sub saas_data dir o now).dir.detected_form_structure = some fs ∧
    (playwrightBody sub saas_data dir o now).dir.last_form_detection
      = dir.last_form_detection ∧
    ((playwrightBody sub saas_data dir o now).sub.submission_data
        = sub.submission_data ∨
     (playwrightBody sub saas_data dir o now).sub.submission_data
        = some (map_saas_data_to_fields saas_data fs.fields, fs)) := by
  refine ⟨?_, ?_, ?_, ?_⟩
  · unfold playwrightBody
    dsimp only
    simp only [hfs]
    repeat' split
    all_goals first
      | rfl
      | apply submitAfterDetect_detCalls
  · unfold playwrightBody
    dsimp only
    simp only [hfs]
    repeat' split
    all_goals first
      | exact hfs
      | (rw [submitAfterDetect_dir_struct]; exact hfs)
  · unfold playwrightBody
    dsimp only
    simp only [hfs]
    repeat' split
    all_goals first
      | rfl
      | rw [submitAfterDetect_dir_lastDet]
  · unfold playwrightBody
    dsimp only
    simp only [hfs]
    repeat' split
    all_goals first
      | exact Or.inl rfl
      | (rw [submitAfterDetect_snapshot]
         split <;> first | exact Or.inl rfl | exact Or.inr rfl)

theorem body_snapshot (sub : Submission) (saas_data : SaasData) (dir : Directory)
    (o : BrowserOracle) (now : Int) (hsd : sub.submission_data = none) :
    (playwrightBody sub saas_data dir o now).sub.submission_data = none ∨
    ∃ fs, (playwrightBody sub saas_data dir o now).dir.detected_form_structure
        = some fs ∧
      (playwrightBody sub saas_data dir o now).sub.submission_data
        = some (map_saas_data_to_fields saas_data fs.fields, fs) := by
  unfold playwrightBody
  dsimp only
  repeat' split
  all_goals first
    | exact Or.inl hsd
    | (rw [submitAfterDetect_snapshot]
       split <;> first
         | exact Or.inl hsd
         | (refine Or.inr ⟨_, ?_, rfl⟩
            rw [submitAfterDetect_dir_struct] <;> first | assumption | rfl))

theorem machine_cached (sub : Submission) (saas_data : SaasData) (dir : Directory)
    (o : BrowserOracle) (now : Int) (fs : FormStructure)
    (hfs : dir.detected_form_structure = some fs) :
    (submitWithPlaywright sub saas_data dir o now).detectionCalls = 0 ∧
    (submitWithPlaywright sub saas_data dir o now).directory.detected_form_structure
      = some fs ∧
    (submitWithPlaywright sub saas_data dir o now).directory.last_form_detection
      = dir.last_form_detection ∧
    ((submitWithPlaywright sub saas_data dir o now).submission.submission_data
        = sub.submission_data ∨
     (submitWithPlaywright sub saas_data dir o now).submission.submission_data
        = some (map_saas_data_to_fields saas_data fs.fields, fs)) := by
  cases henter : o.enter with
  | error e =>
    unfold submitWithPlaywright
    rw [henter]
    exact ⟨rfl, hfs, rfl, Or.inl rfl⟩
  | ok v =>
    unfold submitWithPlaywright
    rw [henter]
    dsimp only [recordError]
    exact body_cached sub saas_data dir o now fs hfs

theorem machine_det_tri (sub : Submission) (saas_data : SaasData) (dir : Directory)
    (o : BrowserOracle) (now : Int) :
    ((submitWithPlaywright sub saas_data dir o now).detectionCalls = 0 ∧
     (submitWithPlaywright sub saas_data dir o now).directory.detected_form_structure
       = dir.detected_form_structure ∧
     (submitWithPlaywright sub saas_data dir o now).directory.last_form_detection
       = dir.last_form_detection) ∨
    ((submitWithPlaywright sub saas_data dir o now).detectionCalls = 1 ∧
     ∃ fs', o.detect = Except.ok fs' ∧
       (submitWithPlaywright sub saas_data dir o now).directory.detected_form_structure
         = some fs' ∧
       (submitWithPlaywright sub saas_data dir o now).directory.last_form_detection
         = some now) ∨
    ((submitWithPlaywright sub saas_data dir o now).detectionCalls = 1 ∧
     (∃ e, o.detect = Except.error e) ∧
     (submitWithPlaywright sub saas_data dir o now).directory.detected_form_structure
       = dir.detected_form_structure ∧
     (submitWithPlaywright sub saas_data dir o now).directory.last_form_detection
       = dir.last_form_detection) := by
  cases henter : o.enter with
  | error e =>
    unfold submitWithPlaywright
    rw [henter]
    exact Or.inl ⟨rfl, rfl, rfl⟩
  | ok v =>
    unfold submitWithPlaywright
    rw [henter]
    dsimp only
    exact body_detect_tri sub saas_data dir o now

theorem machine_det_le_one (sub : Submission) (saas_data : SaasData) (dir : Directory)
    (o : BrowserOracle) (now : Int) :
    (submitWithPlaywright sub saas_data dir o now).detectionCalls ≤ 1 := by
  rcases machine_det_tri sub saas_data dir o now with ⟨h, -, -⟩ | ⟨h, -⟩ | ⟨h, -, -, -⟩ <;>
    omega

theorem machine_snapshot (sub : Submission) (saas_data : SaasData) (dir : Directory)
    (o : BrowserOracle) (now : Int) (hsd : sub.submission_data = none) :
    (submitWithPlaywright sub saas_data dir o now).submission.submission_data = none ∨
    ∃ fs, (submitWithPlaywright sub saas_data dir o now).directory.detected_form_structure
        = some fs ∧
      (submitWithPlaywright sub saas_data dir o now).submission.submission_data
        = some (map_saas_data_to_fields saas_data fs.fields, fs) := by
  cases henter : o.enter with
  | error e =>
    unfold submitWithPlaywright
    rw [henter]
    exact Or.inl hsd
  | ok v =>
    unfold submitWithPlaywright
    rw [henter]
    dsimp only [recordError]
    exact body_snapshot sub saas_data dir o now hsd

theorem machine_error_log (sub : Submission) (saas_data : SaasData) (dir : Directory)
    (o : BrowserOracle) (now : Int) :
    ∃ msg,
      (submitWithPlaywright sub saas_data dir o now).submission.error_log
        = sub.error_log ++ [{ timestamp := now, error := msg }] ∧
      (submitWithPlaywright sub saas_data dir o now).submission.response_message
        = some ("Error: " ++ msg) ∧
      (submitWithPlaywright sub saas_data dir o now).submission.status
        = SubmissionStatus.FAILED := by
  cases henter : o.enter with
  | error e =>
    refine ⟨e, ?_, ?_, ?_⟩ <;> (unfold submitWithPlaywright; rw [henter]) <;> rfl
  | ok v =>
    refine ⟨aexitTypeErrorMsg, ?_, ?_, ?_⟩ <;>
      (unfold submitWithPlaywright; rw [henter]; dsimp only [recordError])
    all_goals first
      | rw [body_error_log]
      | rfl

/-- C9: a missing login URL, username or password makes the login operation return True
with no browser page opened, and the machine then proceeds identically whatever the
browser login outcome would have been, performing no login interaction. -/
theorem login_short_circuit (login_url username password : Option String) (b : Bool)
    (sub : Submission) (saas_data : SaasData) (dir : Directory) (o : BrowserOracle)
    (now : Int)
    (h : truthy login_url = false ∨ truthy username = false ∨ truthy password = false)
    (hdir : truthy dir.login_url = false ∨ truthy dir.login_username = false ∨
            truthy dir.login_password = false) :
    login_if_required login_url username password b = (true, 0) ∧
    submitWithPlaywright sub saas_data dir { o with login_ok := false } now
      = submitWithPlaywright sub saas_data dir { o with login_ok := true } now ∧
    (submitWithPlaywright sub saas_data dir o now).loginBrowserCalls = 0 := by
  have hshort : ∀ b', login_if_required dir.login_url dir.login_username
      dir.login_password b' = (true, 0) := by
    intro b'
    unfold login_if_required
    rcases hdir with h' | h' | h' <;> simp [h']
  have hphase : ∀ o' : BrowserOracle, loginPhase dir o' = (true, 0) := by
    intro o'
    unfold loginPhase
    by_cases hr : dir.requires_login <;> simp [hr, hshort]
  refine ⟨?_, ?_, ?_⟩
  · unfold login_if_required
    rcases h with h' | h' | h' <;> simp [h']
  · obtain ⟨en, lo, uf, dn, dt, fl⟩ := o
    cases en with
    | error e => rfl
    | ok v =>
      unfold submitWithPlaywright playwrightBody
      dsimp only
      rw [hphase, hphase]
      rfl
  · obtain ⟨en, lo, uf, dn, dt, fl⟩ := o
    cases en with
    | error e => rfl
    | ok v =>
      unfold submitWithPlaywright
      dsimp only
      rw [body_loginCalls, hphase]

/-- Witness for C9: a directory flagged requires_login with an empty stored login URL
proceeds with zero login pages opened, and the bare login call returns (True, 0). -/
theorem login_short_circuit_witness :
    login_if_required (some "") (some "user") (some "pw") false = (true, 0) ∧
    (submitWithPlaywright wFresh wSaas wDirNoCreds wOracleA 0).loginBrowserCalls = 0 := by
  have h := login_short_circuit (some "") (some "user") (some "pw") false wFresh wSaas
    wDirNoCreds wOracleA 0 (Or.inl (by decide)) (Or.inl (by decide))
  exact ⟨h.1, h.2.2⟩

/-- C6 counterexample: with a cached zero-field structure the with-block body raises
"No fields could be mapped", but the reason recorded on the Submission is the
context-manager TypeError text that replaces it at session exit - the attempt does not
terminate with a reason indicating no fields could be mapped. -/
theorem no_fields_reason_counterexample :
    (playwrightBody wFresh wSaas wDirEmptyCache wOracleA 0).raise_msg
      = some "No fields could be mapped" ∧
    (submitWithPlaywright wFresh wSaas wDirEmptyCache
        wOracleA 0).submission.response_message
      = some ("Error: " ++ aexitTypeErrorMsg) ∧
    ("Error: " ++ aexitTypeErrorMsg) ≠ "Error: No fields could be mapped" := by
  refine ⟨rfl, rfl, by decide⟩

/-- C6 amended: an empty field mapping (in particular from a detector output with zero
fields) makes the with-block body raise "No fields could be mapped" before any browser
fill or submit runs; a machine run on a directory cached with such a structure ends
FAILED with zero fill calls, but the reason recorded on the record is the async-with
TypeError text that replaces the no-fields exception at session exit. -/
theorem empty_mapping_gate (sub : Submission) (saas_data : SaasData) (dir : Directory)
    (fo : FillOracle) (o : BrowserOracle) (now : Int) (actual_form_url : String)
    (fs : FormStructure) (det lc : Nat)
    (hempty : map_saas_data_to_fields saas_data fs.fields = [])
    (hcache : dir.detected_form_structure = some fs)
    (henter : o.enter = Except.ok ()) :
    submitAfterDetect sub saas_data dir fo now actual_form_url fs det lc
      = bodyRaise sub dir "No fields could be mapped" det lc ∧
    map_saas_data_to_fields saas_data [] = [] ∧
    (submitWithPlaywright sub saas_data dir o now).submission.status
      = SubmissionStatus.FAILED ∧
    (submitWithPlaywright sub saas_data dir o now).fillCalls = 0 ∧
    (submitWithPlaywright sub saas_data dir o now).submission.response_message
      = some ("Error: " ++ aexitTypeErrorMsg) := by
  refine ⟨submitAfterDetect_empty _ _ _ _ _ _ _ _ _ hempty, rfl, ?_, ?_, ?_⟩
  · unfold submitWithPlaywright
    rw [henter]
    rfl
  · unfold submitWithPlaywright
    rw [henter]
    dsimp only
    unfold playwrightBody
    dsimp only
    simp only [hcache]
    repeat' split
    all_goals first
      | rfl
      | (rw [submitAfterDetect_empty _ _ _ _ _ _ _ _ _ hempty] <;> rfl)
  · unfold submitWithPlaywright
    rw [henter]
    rfl

/-- Witness for C6 (amended): the zero-field cached run ends FAILED without any fill
call and records the TypeError text. -/
theorem empty_mapping_gate_witness :
    (submitWithPlaywright wFresh wSaas wDirEmptyCache wOracleA 0).submission.status
      = SubmissionStatus.FAILED ∧
    (submitWithPlaywright wFresh wSaas wDirEmptyCache wOracleA 0).fillCalls = 0 := by
  have h := empty_mapping_gate wFresh wSaas wDirEmptyCache wOracleA.fill wOracleA 0
    "https://d.example/form" wFSempty 0 0 rfl rfl rfl
  exact ⟨h.2.2.1, h.2.2.2.1⟩

/-- C2 counterexample: Directory.requires_login is true with complete credentials, the
browser login fails, and the attempt dies in the except block: the Submission is FAILED
with one error-log entry, but Directory.total_submissions stays at its prior value 5 -
the increment by 1 the claim asserts does not happen - and the recorded response_message
is the context-manager TypeError text, not the "Login failed" reason the claim
requires. -/
theorem login_failure_counter_counterexample :
    (submitWithPlaywright wFresh wSaas cDirLogin cOracleLoginFail 7).submission.status
      = SubmissionStatus.FAILED ∧
    (submitWithPlaywright wFresh wSaas cDirLogin
        cOracleLoginFail 7).submission.error_log.length = 1 ∧
    cDirLogin.total_submissions = 5 ∧
    (submitWithPlaywright wFresh wSaas cDirLogin
        cOracleLoginFail 7).directory.total_submissions = 5 ∧
    (submitWithPlaywright wFresh wSaas cDirLogin
        cOracleLoginFail 7).submission.response_message
      = some ("Error: " ++ aexitTypeErrorMsg) := by
  refine ⟨rfl, rfl, rfl, rfl, rfl⟩

/-- C2 amended: for every attempt whose with-block body raises a fatal exception at any
step (login returning false, url-first failure, detection navigation or detector raise,
empty mapping): the Submission ends FAILED with exactly one timestamped error entry
appended, both Directory counters are unchanged and no fill/submit ran, but the recorded
response_message and log entry carry the __aexit__ TypeError text that replaces the
step's own failure reason at async-with exit. -/
theorem fatal_failure_side_effects (sub : Submission) (saas_data : SaasData)
    (dir : Directory) (o : BrowserOracle) (now : Int)
    (henter : o.enter = Except.ok ())
    (hraised : (playwrightBody sub saas_data dir o now).raised = true)
    (hlog : sub.error_log = []) :
    (submitWithPlaywright sub saas_data dir o now).submission.status
      = SubmissionStatus.FAILED ∧
    (submitWithPlaywright sub saas_data dir o now).submission.response_message
      = some ("Error: " ++ aexitTypeErrorMsg) ∧
    (submitWithPlaywright sub saas_data dir o now).submission.error_log
      = [{ timestamp := now, error := aexitTypeErrorMsg }] ∧
    (submitWithPlaywright sub saas_data dir o now).directory.total_submissions
      = dir.total_submissions ∧
    (submitWithPlaywright sub saas_data dir o now).directory.successful_submissions
      = dir.successful_submissions ∧
    (submitWithPlaywright sub saas_data dir o now).fillCalls = 0 := by
  obtain ⟨hsub, htot, hsucc, hfill⟩ := body_raised_effects sub saas_data dir o now hraised
  unfold submitWithPlaywright
  rw [henter]
  dsimp only [recordError]
  refine ⟨rfl, rfl, ?_, htot, hsucc, hfill⟩
  rw [hsub, hlog]
  rfl

/-- Witness for C2 (amended): the concrete login-failure run appends exactly one entry
and leaves the success counter unchanged. -/
theorem fatal_failure_side_effects_witness :
    (submitWithPlaywright wFresh wSaas cDirLogin
        cOracleLoginFail 7).submission.error_log
      = [{ timestamp := 7, error := aexitTypeErrorMsg }] ∧
    (submitWithPlaywright wFresh wSaas cDirLogin
        cOracleLoginFail 7).directory.successful_submissions
      = cDirLogin.successful_submissions := by
  have h := fatal_failure_side_effects wFresh wSaas cDirLogin cOracleLoginFail 7
    rfl rfl rfl
  exact ⟨h.2.2.1, h.2.2.2.2.1⟩

/-- C5 counterexample: with no cached structure and a detection call that raises (the
form reader re-raises Ollama errors), the first run performs a detection call but caches
nothing, so a second run against the resulting Directory performs a second detection
call: the two runs trigger two detections, refuting "at most one detection". -/
theorem double_detection_counterexample :
    (submitWithPlaywright wFresh wSaas wDir cOracleDetectRaise 0).detectionCalls
      + (submitWithPlaywright wFresh wSaas
          (submitWithPlaywright wFresh wSaas wDir cOracleDetectRaise 0).directory
          cOracleDetectRaise 1).detectionCalls = 2 ∧
    (submitWithPlaywright wFresh wSaas wDir
        cOracleDetectRaise 0).directory.detected_form_structure = none := by
  refine ⟨rfl, rfl⟩

/-- C5 amended: with a cached form structure the machine makes no detection call, leaves
the cache and its timestamp untouched and maps against the cached structure verbatim; a
run whose single detection call completes stores the detected structure and a timestamp
on the Directory, and two consecutive runs then make at most one detection in total -
this bound requires the first run's detection call (if any) to complete, since a
detection call that raises caches nothing and the second run detects again; whenever
both runs store a field-mapping snapshot, the two mappings are identical. -/
theorem form_cache_idempotence (sub sub2 : Submission) (saas_data : SaasData)
    (dir : Directory) (o o2 : BrowserOracle) (now now2 : Int) (fs : FormStructure)
    (hsd : sub.submission_data = none) (hsd2 : sub2.submission_data = none) :
    (dir.detected_form_structure = some fs →
       (submitWithPlaywright sub saas_data dir o now).detectionCalls = 0 ∧
       (submitWithPlaywright sub saas_data dir o now).directory.detected_form_structure
         = some fs ∧
       (submitWithPlaywright sub saas_data dir o now).directory.last_form_detection
         = dir.last_form_detection ∧
       ((submitWithPlaywright sub saas_data dir o now).submission.submission_data = none ∨
        (submitWithPlaywright sub saas_data dir o now).submission.submission_data
          = some (map_saas_data_to_fields saas_data fs.fields, fs))) ∧
    (∀ fs', o.detect = Except.ok fs' →
       (submitWithPlaywright sub saas_data dir o now).detectionCalls = 1 →
       (submitWithPlaywright sub saas_data dir o now).directory.detected_form_structure
         = some fs' ∧
       (submitWithPlaywright sub saas_data dir o now).directory.last_form_detection
         = some now) ∧
    ((∃ fs', o.detect = Except.ok fs') →
       (submitWithPlaywright sub saas_data dir o now).detectionCalls
         + (submitWithPlaywright sub2 saas_data
             (submitWithPlaywright sub saas_data dir o now).directory o2
             now2).detectionCalls ≤ 1) ∧
    (∀ m1 f1 m2 f2,
       (submitWithPlaywright sub saas_data dir o now).submission.submission_data
         = some (m1, f1) →
       (submitWithPlaywright sub2 saas_data
           (submitWithPlaywright sub saas_data dir o now).directory o2
           now2).submission.submission_data = some (m2, f2) →
       m1 = m2) := by
  refine ⟨?_, ?_, ?_, ?_⟩
  · intro hfs
    obtain ⟨h1, h2, h3, h4⟩ := machine_cached sub saas_data dir o now fs hfs
    refine ⟨h1, h2, h3, ?_⟩
    rcases h4 with h4 | h4
    · exact Or.inl (h4.trans hsd)
    · exact Or.inr h4
  · intro fs' hok h1
    rcases machine_det_tri sub saas_data dir o now with ⟨h0, -, -⟩ |
      ⟨-, fs'', hok'', hc, hl⟩ | ⟨-, ⟨e, he⟩, -, -⟩
    · omega
    · obtain rfl : fs'' = fs' := by
        rw [hok''] at hok
        exact Except.ok.inj hok
      exact ⟨hc, hl⟩
    · rw [he] at hok
      cases hok
  · rintro ⟨fs', hok⟩
    rcases machine_det_tri sub saas_data dir o now with ⟨h0, -, -⟩ |
      ⟨h1, fs'', hok'', hc, -⟩ | ⟨-, ⟨e, he⟩, -, -⟩
    · have h2 := machine_det_le_one sub2 saas_data
        (submitWithPlaywright sub saas_data dir o now).directory o2 now2
      omega
    · have h0 := (machine_cached sub2 saas_data
        (submitWithPlaywright sub saas_data dir o now).directory o2 now2 fs'' hc).1
      omega
    · rw [he] at hok
      cases hok
  · intro m1 f1 m2 f2 hm1 hm2
    rcases machine_snapshot sub saas_data dir o now hsd with h | ⟨fs1, hc1, hs1⟩
    · rw [h] at hm1; cases hm1
    · rw [hs1] at hm1
      rw [Option.some.injEq, Prod.mk.injEq] at hm1
      obtain ⟨hm1a, -⟩ := hm1
      obtain ⟨-, -, -, h4⟩ := machine_cached sub2 saas_data
        (submitWithPlaywright sub saas_data dir o now).directory o2 now2 fs1 hc1
      rcases h4 with h4 | h4
      · rw [h4, hsd2] at hm2; cases hm2
      · rw [h4] at hm2
        rw [Option.some.injEq, Prod.mk.injEq] at hm2
        obtain ⟨hm2a, -⟩ := hm2
        rw [← hm1a, ← hm2a]

/-- Witness for C5 (amended): against the directory with a cached structure the first
run makes no detection call, and with a completing detector two consecutive runs make at
most one detection in total. -/
theorem form_cache_idempotence_witness :
    (submitWithPlaywright wFresh wSaas wDirCached wOracleA 0).detectionCalls = 0 ∧
    (submitWithPlaywright wFresh wSaas wDirCached wOracleA 0).detectionCalls
      + (submitWithPlaywright wFresh wSaas
          (submitWithPlaywright wFresh wSaas wDirCached wOracleA 0).directory wOracleA
          1).detectionCalls ≤ 1 := by
  have h := form_cache_idempotence wFresh wFresh wSaas wDirCached wOracleA wOracleA 0 1
    wFS rfl rfl
  exact ⟨(h.1 rfl).1, h.2.2.1 ⟨wFS, rfl⟩⟩

/-- C8 counterexample: in the Browser Use mode, after the PENDING record exists, an
exception from the AI-agent phase is re-raised to the caller (raisedToCaller is set)
even though the record was created and marked FAILED - contradicting the claim that a
failure after record creation is never thrown to the caller. -/
theorem post_record_raise_counterexample :
    (submit_to_directory (some wSaas) (some wDir) true wOracleA
        (BrowserUseOutcome.raised "boom") 1 1 1 0).raisedToCaller = some "boom" ∧
    (submit_to_directory (some wSaas) (some wDir) true wOracleA
        (BrowserUseOutcome.raised "boom") 1 1 1 0).record
      = some { newSubmission 1 1 1 with
                 status := SubmissionStatus.FAILED
                 response_message := some "Error: boom" } := by
  exact ⟨rfl, rfl⟩

/-- C8 amended: a missing product or directory raises the typed "not found" error and no
record is created; once the PENDING record exists, the Playwright path never re-raises
and returns the terminal record, and - because the context-manager exit raises its
TypeError on every run - each Playwright run, fatal or classified-success alike, is
recorded as FAILED with an "Error: "-prefixed message and exactly one timestamped log
entry carrying the same text; the Browser Use path records an exception as FAILED with
the message on the record but re-raises it to the caller. -/
theorem failure_propagation_policy (saas_data : SaasData) (dir : Directory)
    (oPW : BrowserOracle) (oBU : BrowserUseOutcome) (ub : Bool)
    (uid pid did : Nat) (now : Int) :
    ((submit_to_directory none (some dir) ub oPW oBU uid pid did now).record = none ∧
     (submit_to_directory none (some dir) ub oPW oBU uid pid did now).raisedToCaller
       = some "SaaS product or directory not found") ∧
    ((submit_to_directory (some saas_data) none ub oPW oBU uid pid did now).record
       = none ∧
     (submit_to_directory (some saas_data) none ub oPW oBU uid pid did now).raisedToCaller
       = some "SaaS product or directory not found") ∧
    ((submit_to_directory (some saas_data) (some dir) false oPW oBU uid pid did
        now).raisedToCaller = none ∧
     (submit_to_directory (some saas_data) (some dir) false oPW oBU uid pid did
        now).record
       = some (submitWithPlaywright (newSubmission uid pid did) saas_data dir oPW
           now).submission) ∧
    (∃ msg,
       (submitWithPlaywright (newSubmission uid pid did) saas_data dir oPW
           now).submission.error_log = [{ timestamp := now, error := msg }] ∧
       (submitWithPlaywright (newSubmission uid pid did) saas_data dir oPW
           now).submission.response_message = some ("Error: " ++ msg) ∧
       (submitWithPlaywright (newSubmission uid pid did) saas_data dir oPW
           now).submission.status = SubmissionStatus.FAILED) ∧
    (∀ e, oBU = BrowserUseOutcome.raised e →
       (submit_to_directory (some saas_data) (some dir) true oPW oBU uid pid did
           now).raisedToCaller = some e ∧
       (submit_to_directory (some saas_data) (some dir) true oPW oBU uid pid did
           now).record
         = some { newSubmission uid pid did with
                    status := SubmissionStatus.FAILED
                    response_message := some ("Error: " ++ e) }) := by
  refine ⟨⟨rfl, rfl⟩, ⟨rfl, rfl⟩, ⟨rfl, rfl⟩, ?_, ?_⟩
  · obtain ⟨msg, h1, h2, h3⟩ := machine_error_log (newSubmission uid pid did) saas_data
      dir oPW now
    refine ⟨msg, ?_, h2, h3⟩
    rw [h1]
    rfl
  · intro e he
    subst he
    exact ⟨rfl, rfl⟩

/-- Witness for C8 (amended): a concrete Browser Use exception after record creation is
re-raised to the caller, while the concrete Playwright run raises nothing to the
caller. -/
theorem failure_propagation_policy_witness :
    (submit_to_directory (some wSaas) (some wDir) true wOracleA
        (BrowserUseOutcome.raised "oops") 2 3 4 0).raisedToCaller = some "oops" ∧
    (submit_to_directory (some wSaas) (some wDir) false wOracleA
        (BrowserUseOutcome.raised "oops") 2 3 4 0).raisedToCaller = none := by
  have h := failure_propagation_policy wSaas wDir wOracleA (BrowserUseOutcome.raised "oops")
    true 2 3 4 0
  exact ⟨(h.2.2.2.2 "oops" rfl).1, h.2.2.1.1⟩

end SaasDir
